import Mathlib

/-! Shallow embedding of the qdrant-operator core (usecases.py, domain.py). -/

/-- Time instants (Python `datetime`) are modelled as abstract ticks. -/
abbrev Time := Nat

/-- Error text carried by a raised exception (`str(e)`). -/
abbrev Err := String

structure SecretRef where
  name : String
  key : String
  namespace' : String := "default"
  deriving DecidableEq, Repr

structure S3StorageSpec where
  bucket : String
  credentials_secret_ref : SecretRef
  pfx : String := ""
  region : String := "us-east-1"
  endpoint : Option String := none
  force_path_style : Bool := false
  deriving DecidableEq, Repr

structure ClusterRef where
  name : String
  namespace' : String := "default"
  deriving DecidableEq, Repr

structure BackupRef where
  name : String
  namespace' : String := "default"
  deriving DecidableEq, Repr

inductive ClusterPhase where
  | PENDING | RUNNING | FAILED | UPGRADING | TERMINATING
  deriving DecidableEq, Repr

/-- Python enum value string of a cluster phase. -/
def ClusterPhase.value : ClusterPhase → String
  | .PENDING => "Pending"
  | .RUNNING => "Running"
  | .FAILED => "Failed"
  | .UPGRADING => "Upgrading"
  | .TERMINATING => "Terminating"

inductive BackupPhase where
  | PENDING | IN_PROGRESS | COMPLETED | FAILED
  deriving DecidableEq, Repr

def BackupPhase.value : BackupPhase → String
  | .PENDING => "Pending"
  | .IN_PROGRESS => "InProgress"
  | .COMPLETED => "Completed"
  | .FAILED => "Failed"

inductive RestorePhase where
  | PENDING | DOWNLOADING | RESTORING | INDEXING | COMPLETED | FAILED
  deriving DecidableEq, Repr

def RestorePhase.value : RestorePhase → String
  | .PENDING => "Pending"
  | .DOWNLOADING => "Downloading"
  | .RESTORING => "Restoring"
  | .INDEXING => "Indexing"
  | .COMPLETED => "Completed"
  | .FAILED => "Failed"

inductive SchedulePhase where
  | ACTIVE | SUSPENDED
  deriving DecidableEq, Repr

def SchedulePhase.value : SchedulePhase → String
  | .ACTIVE => "Active"
  | .SUSPENDED => "Suspended"

structure ResourceRequirements where
  cpu : Option String := none
  memory : Option String := none
  deriving DecidableEq, Repr

structure Resources where
  requests : ResourceRequirements := {}
  limits : ResourceRequirements := {}
  deriving DecidableEq, Repr

structure PersistenceSpec where
  size : String := "10Gi"
  storage_class : Option String := none
  access_modes : List String := ["ReadWriteOnce"]
  deriving DecidableEq, Repr

structure RetentionPolicy where
  keep_last : Option Int := none
  keep_daily : Option Int := none
  keep_weekly : Option Int := none
  keep_monthly : Option Int := none
  deriving DecidableEq, Repr

structure ClusterSpec where
  name : String
  namespace' : String
  version : String
  replicas : Int := 1
  resources : Resources := {}
  persistence : PersistenceSpec := {}
  cluster_enabled : Bool := true
  api_key_secret_ref : Option SecretRef := none
  metrics_enabled : Bool := false
  deriving DecidableEq, Repr

structure Condition where
  type : String
  status : String
  last_transition_time : Time
  reason : String := ""
  message : String := ""
  deriving DecidableEq, Repr

structure ClusterStatus where
  phase : ClusterPhase
  replicas : Int := 0
  ready_replicas : Int := 0
  helm_release : Option String := none
  endpoint : Option String := none
  version : Option String := none
  conditions : List Condition := []
  observed_generation : Option Int := none
  deriving DecidableEq, Repr

structure Snapshot where
  name : String
  collection : String
  size_bytes : Nat
  created_at : Time
  deriving DecidableEq, Repr

structure BackupSpec where
  name : String
  namespace' : String
  cluster_ref : ClusterRef
  storage : S3StorageSpec
  collections : List String := []
  retention_days : Option Int := none
  deriving DecidableEq, Repr

structure CollectionBackupStatus where
  name : String
  snapshot_name : Option String := none
  size : Option String := none
  status : String := "Pending"
  error : Option Err := none
  deriving DecidableEq, Repr

structure BackupStatus where
  phase : BackupPhase
  start_time : Option Time := none
  completion_time : Option Time := none
  s3_path : Option String := none
  total_size : Option String := none
  collections : List CollectionBackupStatus := []
  error : Option Err := none
  conditions : List Condition := []
  deriving DecidableEq, Repr

structure BackupScheduleSpec where
  name : String
  namespace' : String
  schedule : String
  cluster_ref : ClusterRef
  storage : S3StorageSpec
  collections : List String := []
  retention_policy : RetentionPolicy := {}
  suspend : Bool := false
  deriving DecidableEq, Repr

structure RecentBackup where
  name : String
  creation_time : Time
  completion_time : Option Time := none
  status : String := "Pending"
  size : Option String := none
  deriving DecidableEq, Repr

structure BackupScheduleStatus where
  phase : SchedulePhase
  last_backup_time : Option Time := none
  last_backup_name : Option String := none
  last_backup_status : Option String := none
  next_backup_time : Option Time := none
  active_backup : Option String := none
  recent_backups : List RecentBackup := []
  conditions : List Condition := []
  deriving DecidableEq, Repr

structure RestoreSpec where
  name : String
  namespace' : String
  target_cluster_ref : ClusterRef
  backup_ref : Option BackupRef := none
  source_s3 : Option S3StorageSpec := none
  collections : List String := []
  collection_mapping : List (String × String) := []
  wait_for_indexing : Bool := true
  deriving DecidableEq, Repr

structure RestoredCollection where
  name : String
  original_name : Option String := none
  status : String := "Pending"
  size : Option String := none
  points_count : Option Int := none
  error : Option Err := none
  deriving DecidableEq, Repr

structure RestoreProgress where
  collections_total : Nat := 0
  collections_completed : Nat := 0
  current_collection : Option String := none
  percentage : Nat := 0
  deriving DecidableEq, Repr

structure RestoreStatus where
  phase : RestorePhase
  start_time : Option Time := none
  completion_time : Option Time := none
  source_backup : Option String := none
  restored_collections : List RestoredCollection := []
  progress : RestoreProgress := {}
  error : Option Err := none
  conditions : List Condition := []
  deriving DecidableEq, Repr

/-! ### Serialization (`to_dict` methods of domain.py)

Python dicts built by the `to_dict` methods are modelled as ordered
association lists of JSON-like values; insertion order in the source is
preserved.  Python truthiness of an optional string (`if self.x:`) is
presence AND non-emptiness; a `datetime` is always truthy when present;
a list is truthy iff non-empty. -/

inductive JValue where
  | s (v : String)
  | n (v : Int)
  | b (v : Bool)
  | null
  | arr (l : List JValue)
  | obj (l : List (String × JValue))

abbrev JDict := List (String × JValue)

/-- Rendering of `datetime.isoformat()` on our abstract ticks. -/
def isoformat (t : Time) : String := toString t

/-- Segment for `if self.x: result[k] = self.x` on an optional string attribute. -/
def strEntry (k : String) : Option String → JDict
  | some v => if v ≠ "" then [(k, .s v)] else []
  | none => []

/-- Segment for `if self.t: result[k] = self.t.isoformat()` on an optional datetime. -/
def timeEntry (k : String) : Option Time → JDict
  | some t => [(k, .s (isoformat t))]
  | none => []

/-- Value of an always-present optional attribute (`result[k] = self.x`):
`None` serializes as JSON null. -/
def optStr : Option String → JValue
  | some v => .s v
  | none => .null

def optInt : Option Int → JValue
  | some v => .n v
  | none => .null

def Condition.to_dict (c : Condition) : JDict :=
  [("type", .s c.type),
   ("status", .s c.status),
   ("lastTransitionTime", .s (isoformat c.last_transition_time)),
   ("reason", .s c.reason),
   ("message", .s c.message)]

/-- Serialization `ClusterStatus.to_dict`: every key is emitted unconditionally. -/
def ClusterStatus.to_dict (s : ClusterStatus) : JDict :=
  [("phase", .s s.phase.value),
   ("replicas", .n s.replicas),
   ("readyReplicas", .n s.ready_replicas),
   ("helmRelease", optStr s.helm_release),
   ("endpoint", optStr s.endpoint),
   ("version", optStr s.version),
   ("conditions", .arr (s.conditions.map (fun c => .obj c.to_dict))),
   ("observedGeneration", optInt s.observed_generation)]

def CollectionBackupStatus.to_dict (c : CollectionBackupStatus) : JDict :=
  [("name", .s c.name), ("status", .s c.status)]
  ++ strEntry "snapshotName" c.snapshot_name
  ++ strEntry "size" c.size
  ++ strEntry "error" c.error

def BackupStatus.to_dict (s : BackupStatus) : JDict :=
  [("phase", .s s.phase.value)]
  ++ timeEntry "startTime" s.start_time
  ++ timeEntry "completionTime" s.completion_time
  ++ strEntry "s3Path" s.s3_path
  ++ strEntry "totalSize" s.total_size
  ++ (if s.collections ≠ [] then
        [("collections", .arr (s.collections.map (fun c => .obj c.to_dict)))]
      else [])
  ++ strEntry "error" s.error
  ++ (if s.conditions ≠ [] then
        [("conditions", .arr (s.conditions.map (fun c => .obj c.to_dict)))]
      else [])

def RecentBackup.to_dict (b : RecentBackup) : JDict :=
  [("name", .s b.name),
   ("creationTime", .s (isoformat b.creation_time)),
   ("status", .s b.status)]
  ++ timeEntry "completionTime" b.completion_time
  ++ strEntry "size" b.size

def BackupScheduleStatus.to_dict (s : BackupScheduleStatus) : JDict :=
  [("phase", .s s.phase.value)]
  ++ timeEntry "lastBackupTime" s.last_backup_time
  ++ strEntry "lastBackupName" s.last_backup_name
  ++ strEntry "lastBackupStatus" s.last_backup_status
  ++ timeEntry "nextBackupTime" s.next_backup_time
  ++ strEntry "activeBackup" s.active_backup
  ++ (if s.recent_backups ≠ [] then
        [("recentBackups", .arr (s.recent_backups.map (fun b => .obj b.to_dict)))]
      else [])
  ++ (if s.conditions ≠ [] then
        [("conditions", .arr (s.conditions.map (fun c => .obj c.to_dict)))]
      else [])

/-- Serialization `RestoredCollection.to_dict`; note `points_count` is included under an
explicit `is not None` check in the source, so a zero count is kept. -/
def RestoredCollection.to_dict (c : RestoredCollection) : JDict :=
  [("name", .s c.name), ("status", .s c.status)]
  ++ strEntry "originalName" c.original_name
  ++ strEntry "size" c.size
  ++ (match c.points_count with
      | some n => [("pointsCount", .n n)]
      | none => [])
  ++ strEntry "error" c.error

def RestoreProgress.to_dict (p : RestoreProgress) : JDict :=
  [("collectionsTotal", .n p.collections_total),
   ("collectionsCompleted", .n p.collections_completed),
   ("percentage", .n p.percentage)]
  ++ strEntry "currentCollection" p.current_collection

def RestoreStatus.to_dict (s : RestoreStatus) : JDict :=
  [("phase", .s s.phase.value)]
  ++ timeEntry "startTime" s.start_time
  ++ timeEntry "completionTime" s.completion_time
  ++ strEntry "sourceBackup" s.source_backup
  ++ (if s.restored_collections ≠ [] then
        [("restoredCollections",
          .arr (s.restored_collections.map (fun c => .obj c.to_dict)))]
      else [])
  ++ [("progress", .obj s.progress.to_dict)]
  ++ strEntry "error" s.error
  ++ (if s.conditions ≠ [] then
        [("conditions", .arr (s.conditions.map (fun c => .obj c.to_dict)))]
      else [])

/-! ### Pure helper functions of usecases.py -/

/-- Python `f"{n:.1f}"` applied to an `int`: `size_bytes` starts as an int
and is only ever floor-divided (`//`), so the rendered decimal is
always `.0`. -/
def pyFormat1f (n : Nat) : String := toString n ++ ".0"

/-- The unit loop of `format_size` (`for unit in [...]: if size_bytes < 1024:
return ...; size_bytes = size_bytes // 1024`). -/
def formatSizeGo (n : Nat) : List String → String
  | [] => pyFormat1f n ++ "PB"
  | u :: rest => if n < 1024 then pyFormat1f n ++ u else formatSizeGo (n / 1024) rest

def format_size (size_bytes : Nat) : String :=
  formatSizeGo size_bytes ["B", "KB", "MB", "GB", "TB"]

/-- Insert into a sorted duplicate-free list of strings, keeping it sorted
and duplicate-free; folding this over the extracted names realises
Python's `sorted(set(...))`. -/
def insertSorted (x : String) : List String → List String
  | [] => [x]
  | y :: ys =>
      if x = y then y :: ys
      else if x < y then x :: y :: ys
      else y :: insertSorted x ys

/-- Function `extract_collections`: the collection name of a file path is its
second-to-last `/`-separated segment (paths with fewer than two segments
are skipped); the result is deduplicated and sorted. -/
def extract_collections (files : List String) : List String :=
  files.foldl
    (fun acc f =>
      let parts := f.splitOn "/"
      if parts.length ≥ 2 then insertSorted parts[parts.length - 2]! acc else acc)
    []

/-- Function `find_snapshot_key`: first listed file containing `"/<collection>/"` and
ending in `".snapshot"`; raises when none matches.  Python's substring
test `x in f` is rendered via `splitOn`. -/
def find_snapshot_key (files : List String) (collection : String) : Except Err String :=
  match files.find?
      (fun f => (f.splitOn ("/" ++ collection ++ "/")).length > 1
                 && f.endsWith ".snapshot") with
  | some f => .ok f
  | none => .error ("No snapshot found for collection " ++ collection)

/-- Python `dict.get(k, d)` on the collection-mapping table. -/
def dictGet (m : List (String × String)) (k d : String) : String :=
  match m.find? (fun p => p.1 == k) with
  | some p => p.2
  | none => d

/-! ### build_helm_values (domain.py) -/

/-- Python truthiness of an optional string attribute. -/
def strTruthy : Option String → Bool
  | some v => v ≠ ""
  | none => false

/-- One `{k: v for k, v in [...] if v}` comprehension over cpu/memory. -/
def cpuMemEntries (r : ResourceRequirements) : List (String × String) :=
  (([("cpu", r.cpu), ("memory", r.memory)] : List (String × Option String)).filterMap
    (fun p => match p.2 with
      | some v => if v ≠ "" then some (p.1, v) else none
      | none => none))

/-- The Helm values dict, with each conditionally-present block an `Option`. -/
structure HelmValues where
  replicaCount : Int
  imageTag : String
  persistence_size : String
  persistence_accessModes : List String
  persistence_storageClassName : Option String
  cluster_enabled : Bool
  resources_requests : Option (List (String × String))
  resources_limits : Option (List (String × String))
  metrics_serviceMonitor_enabled : Bool
  deriving DecidableEq, Repr

def build_helm_values (spec : ClusterSpec) : HelmValues :=
  let requests :=
    if strTruthy spec.resources.requests.cpu || strTruthy spec.resources.requests.memory
    then some (cpuMemEntries spec.resources.requests) else none
  let limits :=
    if strTruthy spec.resources.limits.cpu || strTruthy spec.resources.limits.memory
    then some (cpuMemEntries spec.resources.limits) else none
  let tag := if spec.version.startsWith "v" then spec.version else "v" ++ spec.version
  { replicaCount := spec.replicas,
    imageTag := tag,
    persistence_size := spec.persistence.size,
    persistence_accessModes := spec.persistence.access_modes,
    persistence_storageClassName := spec.persistence.storage_class,
    cluster_enabled := spec.cluster_enabled,
    resources_requests := requests,
    resources_limits := limits,
    metrics_serviceMonitor_enabled := spec.metrics_enabled }

/-! ### ReconcileCluster / DeleteCluster (usecases.py)

Port calls are modelled as oracles: `get_release_status` and
`get_service_endpoint` are functions of their arguments (the helm adapter
returns a status dict or `None`; absence is the falsy branch), while the
side-effecting `install` / `upgrade` / `uninstall` calls are recorded in an
action trace returned alongside the status. -/

def QDRANT_HELM_CHART : String := "qdrant/qdrant"

inductive HelmAction where
  | install (release_name namespace' chart : String) (values : HelmValues)
      (version : String)
  | upgrade (release_name namespace' chart : String) (values : HelmValues)
      (version : String)
  | uninstall (release_name namespace' : String)
  deriving DecidableEq, Repr

structure ClusterPorts where
  get_release_status : String → String → Option String
  get_service_endpoint : String → String → String

/-- Use case `ReconcileCluster.execute`; `now` stands for `datetime.now()`. -/
def ReconcileCluster.execute (ports : ClusterPorts) (spec : ClusterSpec)
    (now : Time) : List HelmAction × ClusterStatus :=
  let release_name := "qdrant-" ++ spec.name
  let values := build_helm_values spec
  let existing := ports.get_release_status release_name spec.namespace'
  let (actions, phase) :=
    match existing with
    | none =>
        ([HelmAction.install release_name spec.namespace' QDRANT_HELM_CHART
            values spec.version],
         ClusterPhase.PENDING)
    | some _ =>
        ([HelmAction.upgrade release_name spec.namespace' QDRANT_HELM_CHART
            values spec.version],
         ClusterPhase.UPGRADING)
  let endpoint := ports.get_service_endpoint release_name spec.namespace'
  (actions,
   { phase := phase,
     replicas := spec.replicas,
     ready_replicas := 0,
     helm_release := some release_name,
     endpoint := some endpoint,
     version := some spec.version,
     conditions :=
       [{ type := "Reconciling",
          status := "True",
          last_transition_time := now,
          reason := "HelmReleaseUpdated",
          message := "Helm release " ++ release_name ++ " updated" }] })

/-- Use case `DeleteCluster.execute` issues a single uninstall for the deterministic
release name. -/
def DeleteCluster.execute (spec : ClusterSpec) : List HelmAction :=
  [HelmAction.uninstall ("qdrant-" ++ spec.name) spec.namespace']

/-! ### ExecuteBackup (usecases.py)

Each awaited port call is an oracle returning `Except Err α`: `.error e`
models the call raising an exception whose text is `e`. -/

structure BackupPorts where
  get_secret_value : SecretRef → Except Err String
  list_collections : String → Option String → Except Err (List String)
  create_snapshot : String → String → Option String → Except Err Snapshot
  download_snapshot : String → String → String → String → Option String →
    Except Err Unit
  upload_file : S3StorageSpec → (String × String) → String → String →
    Except Err Unit
  delete_snapshot : String → String → String → Option String → Except Err Unit

/-- Method `get_storage_credentials` (identical on ExecuteBackup and
ExecuteRestore): access key from the spec's secret ref, secret key from
the same secret under the fixed key `AWS_SECRET_ACCESS_KEY`. -/
def get_storage_credentials (get_secret_value : SecretRef → Except Err String)
    (storage : S3StorageSpec) : Except Err (String × String) := do
  let access_key ← get_secret_value storage.credentials_secret_ref
  let r := storage.credentials_secret_ref
  let secret_key ← get_secret_value
    { name := r.name, key := "AWS_SECRET_ACCESS_KEY", namespace' := r.namespace' }
  return (access_key, secret_key)

/-- Body of the per-collection `try`/`except` in `ExecuteBackup.execute`:
returns the `CollectionBackupStatus` entries appended for this collection
and the amount added to `total_size`.  The `Completed` entry is appended
(and the size added) before `delete_snapshot` runs, so a failing delete
appends a second, `Failed`, entry for the same collection. -/
def backupCollection (ports : BackupPorts) (spec : BackupSpec)
    (cluster_endpoint : String) (api_key : Option String)
    (credentials : String × String) (collection : String) :
    List CollectionBackupStatus × Nat :=
  let failedEntry := fun (e : Err) =>
    ({ name := collection, status := "Failed", error := some e } :
      CollectionBackupStatus)
  match ports.create_snapshot cluster_endpoint collection api_key with
  | .error e => ([failedEntry e], 0)
  | .ok snapshot =>
    let local_path := "/tmp/" ++ snapshot.name
    match ports.download_snapshot cluster_endpoint collection snapshot.name
        local_path api_key with
    | .error e => ([failedEntry e], 0)
    | .ok _ =>
      let remote_key :=
        spec.storage.pfx ++ "/" ++ spec.name ++ "/" ++ collection ++ "/" ++
          snapshot.name
      match ports.upload_file spec.storage credentials local_path remote_key with
      | .error e => ([failedEntry e], 0)
      | .ok _ =>
        let completedEntry : CollectionBackupStatus :=
          { name := collection,
            snapshot_name := some snapshot.name,
            size := some (format_size snapshot.size_bytes),
            status := "Completed" }
        match ports.delete_snapshot cluster_endpoint collection snapshot.name
            api_key with
        | .ok _ => ([completedEntry], snapshot.size_bytes)
        | .error e => ([completedEntry, failedEntry e], snapshot.size_bytes)

/-- The loop and aggregation of `ExecuteBackup.execute` after credentials
and the collection set have been resolved. -/
def backupRun (ports : BackupPorts) (spec : BackupSpec) (cluster_endpoint : String)
    (api_key : Option String) (credentials : String × String)
    (collections : List String) (start_time end_time : Time) : BackupStatus :=
  let collection_statuses :=
    collections.flatMap
      (fun c => (backupCollection ports spec cluster_endpoint api_key credentials c).1)
  let total_size :=
    (collections.map
      (fun c => (backupCollection ports spec cluster_endpoint api_key credentials c).2)).sum
  let failed := collection_statuses.filter (fun c => c.status == "Failed")
  let phase := if failed ≠ [] then BackupPhase.FAILED else BackupPhase.COMPLETED
  { phase := phase,
    start_time := some start_time,
    completion_time := some end_time,
    s3_path := some ("s3://" ++ spec.storage.bucket ++ "/" ++ spec.storage.pfx ++
      "/" ++ spec.name),
    total_size := some (format_size total_size),
    collections := collection_statuses,
    error := failed.head?.bind (fun c => c.error),
    conditions :=
      [{ type := "Complete",
         status := if phase = BackupPhase.COMPLETED then "True" else "False",
         last_transition_time := end_time,
         reason := if phase = BackupPhase.COMPLETED then "BackupCompleted"
                   else "BackupFailed",
         message := "Backed up " ++
           toString ((collections.length : Int) - failed.length) ++ "/" ++
           toString collections.length ++ " collections" }] }

/-- Use case `ExecuteBackup.execute`: `api_key` is `None` (the `cluster_ref` branch is
a `pass`), credentials and — when the spec lists none — the collection set
are resolved, then the per-collection loop runs. -/
def ExecuteBackup.execute (ports : BackupPorts) (spec : BackupSpec)
    (cluster_endpoint : String) (start_time end_time : Time) :
    Except Err BackupStatus := do
  let api_key : Option String := none
  let credentials ← get_storage_credentials ports.get_secret_value spec.storage
  let collections ←
    if spec.collections ≠ [] then pure spec.collections
    else ports.list_collections cluster_endpoint api_key
  return backupRun ports spec cluster_endpoint api_key credentials collections
    start_time end_time

/-! ### ExecuteRestore (usecases.py)

`get_resource` is specialised to the one lookup the use case performs
(`qdrantbackups` by name/namespace): the oracle returns `none` when the
resource is absent, and otherwise the resource's `status.s3Path` field
(itself optional).  A present but empty `s3Path` string is falsy in
Python's `backup.get("status", {}).get("s3Path")` test. -/

structure RestorePorts where
  get_secret_value : SecretRef → Except Err String
  get_resource : BackupRef → Option (Option String)
  list_files : S3StorageSpec → (String × String) → String →
    Except Err (List String)
  download_file : S3StorageSpec → (String × String) → String → String →
    Except Err Unit
  recover_from_snapshot : String → String → String → Except Err Unit
  get_collection_info : String → String → Except Err (Option Int)

/-- Method `ExecuteRestore.resolve_source`. -/
def resolve_source (ports : RestorePorts) (spec : RestoreSpec) :
    Except Err String :=
  let fallback : Except Err String :=
    match spec.source_s3 with
    | some s => .ok s.pfx
    | none => .error "No valid backup source found"
  match spec.backup_ref with
  | some r =>
      match ports.get_resource r with
      | some s3Path =>
          match s3Path with
          | some p => if p ≠ "" then .ok p else fallback
          | none => fallback
      | none => fallback
  | none => fallback

/-- Body of the per-collection `try`/`except` in `ExecuteRestore.execute`. -/
def restoreCollection (ports : RestorePorts) (storage : S3StorageSpec)
    (credentials : String × String) (files : List String)
    (cluster_endpoint collection target_name : String) : RestoredCollection :=
  let original_name := if collection ≠ target_name then some collection else none
  let failedEntry := fun (e : Err) =>
    ({ name := target_name, original_name := original_name,
       status := "Failed", error := some e } : RestoredCollection)
  match find_snapshot_key files collection with
  | .error e => failedEntry e
  | .ok snapshot_key =>
    let local_path := "/tmp/" ++ collection ++ "_restore.snapshot"
    match ports.download_file storage credentials snapshot_key local_path with
    | .error e => failedEntry e
    | .ok _ =>
      match ports.recover_from_snapshot cluster_endpoint target_name
          local_path with
      | .error e => failedEntry e
      | .ok _ =>
        match ports.get_collection_info cluster_endpoint target_name with
        | .error e => failedEntry e
        | .ok points_count =>
          { name := target_name, original_name := original_name,
            status := "Completed", points_count := points_count }

/-- The indexed loop of `ExecuteRestore.execute`.  Besides the appended
`RestoredCollection` entries, it returns the trace of per-iteration
`RestoreProgress` values (each containing the `int((i / total) * 100)`
division, rendered as `i * 100 / total` on naturals); the trace is dead in
the final status but witnesses which divisions were evaluated. -/
def restoreLoop (ports : RestorePorts) (storage : S3StorageSpec)
    (credentials : String × String) (files : List String)
    (mapping : List (String × String)) (total : Nat) (cluster_endpoint : String) :
    Nat → List String → List RestoredCollection × List RestoreProgress
  | _, [] => ([], [])
  | i, collection :: rest =>
    let target_name := dictGet mapping collection collection
    let progress : RestoreProgress :=
      { collections_total := total,
        collections_completed := i,
        current_collection := some target_name,
        percentage := i * 100 / total }
    let entry := restoreCollection ports storage credentials files
      cluster_endpoint collection target_name
    let (restTail, progTail) := restoreLoop ports storage credentials files
      mapping total cluster_endpoint (i + 1) rest
    (entry :: restTail, progress :: progTail)

/-- The collection resolution, loop and aggregation of
`ExecuteRestore.execute` after source, storage, credentials and the file
listing have been resolved. -/
def restoreRun (ports : RestorePorts) (spec : RestoreSpec)
    (storage : S3StorageSpec) (credentials : String × String)
    (files : List String) (source_path cluster_endpoint : String)
    (start_time end_time : Time) : RestoreStatus :=
  let collections :=
    if spec.collections ≠ [] then spec.collections else extract_collections files
  let (restored, _progressTrace) := restoreLoop ports storage credentials files
    spec.collection_mapping collections.length cluster_endpoint 0 collections
  let failed := restored.filter (fun r => r.status == "Failed")
  let phase := if failed ≠ [] then RestorePhase.FAILED else RestorePhase.COMPLETED
  { phase := phase,
    start_time := some start_time,
    completion_time := some end_time,
    source_backup := some source_path,
    restored_collections := restored,
    progress :=
      { collections_total := collections.length,
        collections_completed := collections.length - failed.length,
        percentage := 100 },
    error := failed.head?.bind (fun r => r.error) }

/-- Use case `ExecuteRestore.execute`. -/
def ExecuteRestore.execute (ports : RestorePorts) (spec : RestoreSpec)
    (cluster_endpoint : String) (start_time end_time : Time) :
    Except Err RestoreStatus := do
  let source_path ← resolve_source ports spec
  let storage ←
    match spec.source_s3 with
    | some s => pure s
    | none => Except.error "No storage configuration found"
  let credentials ← get_storage_credentials ports.get_secret_value storage
  let files ← ports.list_files storage credentials source_path
  return restoreRun ports spec storage credentials files source_path
    cluster_endpoint start_time end_time

/-! ### ProcessSchedule (usecases.py)

`croniter(schedule, base).get_next(datetime)` is an external library call;
it is modelled as an oracle `cronNext : String → Time → Time` passed in,
and `now.strftime` as an oracle `fmtTimestamp : Time → String`.  Backup
submissions through `kubernetes.create_resource` are returned as a list. -/

/-- Function `build_backup_resource`, with the nested resource dict flattened to a
structure (one field per leaf of the body). -/
structure BackupResource where
  name : String
  namespace' : String
  schedule_label : String
  cluster_ref_name : String
  cluster_ref_namespace : String
  s3_bucket : String
  s3_prefix : String
  s3_region : String
  s3_endpoint : Option String
  s3_force_path_style : Bool
  creds_name : String
  creds_access_key_id_key : String
  collections : Option (List String)
  deriving DecidableEq, Repr

def build_backup_resource (spec : BackupScheduleSpec) (backup_name : String) :
    BackupResource :=
  { name := backup_name,
    namespace' := spec.namespace',
    schedule_label := spec.name,
    cluster_ref_name := spec.cluster_ref.name,
    cluster_ref_namespace := spec.cluster_ref.namespace',
    s3_bucket := spec.storage.bucket,
    s3_prefix := spec.storage.pfx ++ "/" ++ backup_name,
    s3_region := spec.storage.region,
    s3_endpoint := spec.storage.endpoint,
    s3_force_path_style := spec.storage.force_path_style,
    creds_name := spec.storage.credentials_secret_ref.name,
    creds_access_key_id_key := spec.storage.credentials_secret_ref.key,
    collections := if spec.collections ≠ [] then some spec.collections else none }

/-- Function `compute_next_run(schedule, last_run)` with `now` standing for the
`datetime.now()` default of the anchor.  The source annotates the result
as optional but the body always returns `cron.get_next(datetime)`. -/
def compute_next_run (cronNext : String → Time → Time) (schedule : String)
    (last_run : Option Time) (now : Time) : Time :=
  cronNext schedule (last_run.getD now)

/-- Use case `ProcessSchedule.execute`; a `datetime` is always truthy, so the
source's `if next_run and now >= next_run` reduces to the comparison. -/
def ProcessSchedule.execute (cronNext : String → Time → Time)
    (fmtTimestamp : Time → String) (spec : BackupScheduleSpec)
    (status : BackupScheduleStatus) (now : Time) :
    List BackupResource × BackupScheduleStatus :=
  if spec.suspend then
    ([],
     { phase := SchedulePhase.SUSPENDED,
       last_backup_time := status.last_backup_time,
       last_backup_name := status.last_backup_name,
       next_backup_time := none })
  else
    let next_run := compute_next_run cronNext spec.schedule
      status.last_backup_time now
    if now ≥ next_run then
      let backup_name := spec.name ++ "-" ++ fmtTimestamp now
      ([build_backup_resource spec backup_name],
       { phase := SchedulePhase.ACTIVE,
         last_backup_time := some now,
         last_backup_name := some backup_name,
         next_backup_time := some (compute_next_run cronNext spec.schedule
           (some now) now),
         active_backup := some backup_name })
    else
      ([],
       { phase := SchedulePhase.ACTIVE,
         last_backup_time := status.last_backup_time,
         last_backup_name := status.last_backup_name,
         next_backup_time := some next_run })

/-! ### Classifiers and fixtures used by the theorems below -/

def HelmAction.isInstall : HelmAction → Bool
  | .install .. => true
  | _ => false

def HelmAction.isUpgrade : HelmAction → Bool
  | .upgrade .. => true
  | _ => false

def sampleSecretRef : SecretRef :=
  { name := "s3-creds", key := "AWS_ACCESS_KEY_ID" }

def sampleStorage : S3StorageSpec :=
  { bucket := "bkt", credentials_secret_ref := sampleSecretRef, pfx := "backups" }

def sampleClusterRef : ClusterRef := { name := "c1" }

def sampleScheduleSpec : BackupScheduleSpec :=
  { name := "sched", namespace' := "default", schedule := "0 0 * * *",
    cluster_ref := sampleClusterRef, storage := sampleStorage }

/-- Backup ports where every step succeeds for every collection except the
final remote-snapshot deletion, which raises. -/
def deleteFailPorts : BackupPorts :=
  { get_secret_value := fun _ => .ok "key",
    list_collections := fun _ _ => .ok ["c"],
    create_snapshot := fun _ c _ =>
      .ok { name := c ++ "-snap", collection := c, size_bytes := 2048,
            created_at := 0 },
    download_snapshot := fun _ _ _ _ _ => .ok (),
    upload_file := fun _ _ _ _ => .ok (),
    delete_snapshot := fun _ _ _ _ => .error "delete failed" }

def oneCollectionBackupSpec : BackupSpec :=
  { name := "bk", namespace' := "default", cluster_ref := sampleClusterRef,
    storage := sampleStorage, collections := ["c"] }

/-- Restore ports whose backup-resource lookup always finds a backup with a
recorded storage path, with every other call succeeding trivially. -/
def backupRefPorts : RestorePorts :=
  { get_secret_value := fun _ => .ok "key",
    get_resource := fun _ => some (some "bkt/prior-backup"),
    list_files := fun _ _ _ => .ok [],
    download_file := fun _ _ _ _ => .ok (),
    recover_from_snapshot := fun _ _ _ => .ok (),
    get_collection_info := fun _ _ => .ok (some 7) }

/-- A RestoreSpec carrying only a backup reference and no direct storage
source. -/
def backupRefOnlySpec : RestoreSpec :=
  { name := "rst", namespace' := "default", target_cluster_ref := sampleClusterRef,
    backup_ref := some { name := "prior-backup" }, source_s3 := none }

/-! ### Theorems -/

/-- C8: the size formatter maps 0 to "0.0B", 1048576 to "1.0MB" and 1024^5
to PB as claimed; but because the source floor-divides (`//`) an `int`
before applying the one-decimal format, 1536 renders as "1.0KB", not the
claimed "1.5KB". -/
theorem format_size_eval :
    format_size 0 = "0.0B" ∧ format_size 1536 = "1.0KB" ∧
    format_size 1048576 = "1.0MB" ∧ format_size (1024 ^ 5) = "1.0PB" :=
  ⟨rfl, rfl, rfl, by norm_num [format_size, formatSizeGo, pyFormat1f]; rfl⟩

/-- C5: with `suspend = true` the Schedule Processor submits no backup
resource and returns phase Suspended, preserving the prior last-backup
time and name, with no next-backup time. -/
theorem schedule_suspended (cronNext : String → Time → Time)
    (fmtTimestamp : Time → String) (spec : BackupScheduleSpec)
    (status : BackupScheduleStatus) (now : Time) (h : spec.suspend = true) :
    ProcessSchedule.execute cronNext fmtTimestamp spec status now =
      ([], { phase := SchedulePhase.SUSPENDED,
             last_backup_time := status.last_backup_time,
             last_backup_name := status.last_backup_name,
             next_backup_time := none }) := by
  simp [ProcessSchedule.execute, h]

/-- C5 witness: a concrete suspended schedule at a due instant still submits
nothing and keeps its last-backup fields. -/
theorem schedule_suspended_witness :
    ProcessSchedule.execute (fun _ b => b + 1) (fun t => toString t)
      { sampleScheduleSpec with suspend := true }
      { phase := SchedulePhase.ACTIVE, last_backup_time := some 5,
        last_backup_name := some "n" } 10 =
      ([], { phase := SchedulePhase.SUSPENDED, last_backup_time := some 5,
             last_backup_name := some "n", next_backup_time := none }) :=
  schedule_suspended _ _ _ _ _ rfl

/-- C7: the Cluster Reconciler queries the deployer for release
`"qdrant-" + spec.name`; absence leads to exactly an install and phase
Pending, presence to exactly an upgrade and phase Upgrading, never both in
one call; the returned status carries the requested replica count, zero
ready replicas, the release name, the resolved endpoint and the spec's
version. -/
theorem reconcile_cluster (ports : ClusterPorts) (spec : ClusterSpec)
    (now : Time) :
    (ports.get_release_status ("qdrant-" ++ spec.name) spec.namespace' = none →
      (ReconcileCluster.execute ports spec now).1 =
        [HelmAction.install ("qdrant-" ++ spec.name) spec.namespace'
          QDRANT_HELM_CHART (build_helm_values spec) spec.version] ∧
      (ReconcileCluster.execute ports spec now).2.phase = ClusterPhase.PENDING) ∧
    (∀ s, ports.get_release_status ("qdrant-" ++ spec.name) spec.namespace' =
        some s →
      (ReconcileCluster.execute ports spec now).1 =
        [HelmAction.upgrade ("qdrant-" ++ spec.name) spec.namespace'
          QDRANT_HELM_CHART (build_helm_values spec) spec.version] ∧
      (ReconcileCluster.execute ports spec now).2.phase =
        ClusterPhase.UPGRADING) ∧
    (ReconcileCluster.execute ports spec now).1.length = 1 ∧
    ¬((ReconcileCluster.execute ports spec now).1.any HelmAction.isInstall = true ∧
      (ReconcileCluster.execute ports spec now).1.any HelmAction.isUpgrade = true) ∧
    (ReconcileCluster.execute ports spec now).2.replicas = spec.replicas ∧
    (ReconcileCluster.execute ports spec now).2.ready_replicas = 0 ∧
    (ReconcileCluster.execute ports spec now).2.helm_release =
      some ("qdrant-" ++ spec.name) ∧
    (ReconcileCluster.execute ports spec now).2.endpoint =
      some (ports.get_service_endpoint ("qdrant-" ++ spec.name)
        spec.namespace') ∧
    (ReconcileCluster.execute ports spec now).2.version = some spec.version := by
  cases h : ports.get_release_status ("qdrant-" ++ spec.name) spec.namespace' <;>
    simp [ReconcileCluster.execute, h, HelmAction.isInstall, HelmAction.isUpgrade]

/-- C7 witness: with a deployer reporting no existing release, a concrete
spec yields exactly one install action and phase Pending. -/
theorem reconcile_cluster_witness :
    (ReconcileCluster.execute
      { get_release_status := fun _ _ => none,
        get_service_endpoint := fun n ns => "http://" ++ n ++ "." ++ ns }
      { name := "c1", namespace' := "default", version := "1.12.4" } 7).1 =
      [HelmAction.install "qdrant-c1" "default" QDRANT_HELM_CHART
        (build_helm_values
          { name := "c1", namespace' := "default", version := "1.12.4" })
        "1.12.4"] :=
  ((reconcile_cluster _ _ _).1 rfl).1

/-- C6: for a non-suspended schedule (and a cron oracle whose next
occurrence is strictly after its base, as croniter's `get_next` is), the
computed next run is strictly after the anchor — the prior last-backup
time if present, else now; if now has reached it, exactly one backup
resource named `"<schedule.name>-" + formatted now` is submitted and the
returned status is Active with last-backup time/name set to now/that name,
the name as active backup, and the next-backup time recomputed from now;
otherwise nothing is submitted and the status is Active with prior
last-backup fields unchanged and only the computed next-backup time set. -/
theorem schedule_not_suspended (cronNext : String → Time → Time)
    (fmtTimestamp : Time → String) (spec : BackupScheduleSpec)
    (status : BackupScheduleStatus) (now : Time) (hs : spec.suspend = false)
    (hstrict : ∀ s b, b < cronNext s b) :
    (status.last_backup_time.getD now <
      compute_next_run cronNext spec.schedule status.last_backup_time now) ∧
    (now ≥ compute_next_run cronNext spec.schedule status.last_backup_time now →
      ProcessSchedule.execute cronNext fmtTimestamp spec status now =
        ([build_backup_resource spec
            (spec.name ++ "-" ++ fmtTimestamp now)],
         { phase := SchedulePhase.ACTIVE,
           last_backup_time := some now,
           last_backup_name := some (spec.name ++ "-" ++ fmtTimestamp now),
           next_backup_time := some (cronNext spec.schedule now),
           active_backup := some (spec.name ++ "-" ++ fmtTimestamp now) })) ∧
    (now < compute_next_run cronNext spec.schedule status.last_backup_time now →
      ProcessSchedule.execute cronNext fmtTimestamp spec status now =
        ([], { phase := SchedulePhase.ACTIVE,
               last_backup_time := status.last_backup_time,
               last_backup_name := status.last_backup_name,
               next_backup_time := some (compute_next_run cronNext
                 spec.schedule status.last_backup_time now) })) := by
  refine ⟨hstrict spec.schedule _, fun hdue => ?_, fun hnot => ?_⟩
  · have hdue' : cronNext spec.schedule (status.last_backup_time.getD now) ≤ now :=
      hdue
    simp [ProcessSchedule.execute, hs, hdue', compute_next_run]
  · have hnot' : now < cronNext spec.schedule (status.last_backup_time.getD now) :=
      hnot
    simp [ProcessSchedule.execute, hs, Nat.not_le_of_lt hnot', compute_next_run]

/-- C6 witness: with cron oracle `b + 3`, a schedule last fired at 5 and
now 10 is due (next run 8, strictly after 5): one backup named
"sched-10" is submitted and the status advances to now. -/
theorem schedule_not_suspended_witness :
    (5 : Time) < compute_next_run (fun _ b => b + 3) "0 0 * * *" (some 5) 10 ∧
    ProcessSchedule.execute (fun _ b => b + 3) (fun t => toString t)
      sampleScheduleSpec
      { phase := SchedulePhase.ACTIVE, last_backup_time := some 5,
        last_backup_name := some "old" } 10 =
      ([build_backup_resource sampleScheduleSpec "sched-10"],
       { phase := SchedulePhase.ACTIVE,
         last_backup_time := some 10,
         last_backup_name := some "sched-10",
         next_backup_time := some 13,
         active_backup := some "sched-10" }) :=
  have h := schedule_not_suspended (fun _ b => b + 3) (fun t => toString t)
    sampleScheduleSpec
    { phase := SchedulePhase.ACTIVE, last_backup_time := some 5,
      last_backup_name := some "old" } 10 rfl (fun _ b => Nat.lt_add_of_pos_right (by decide))
  ⟨h.1, h.2.1 (by decide)⟩

/-- C3: evaluation at the failing input.  When snapshot creation, download
and upload all succeed for collection "c" but deleting the remote snapshot
raises, the returned collection-status list holds TWO terminal entries for
"c" — one Completed and one Failed — contradicting the claimed invariant
of exactly one terminal entry per collection attempted, and the aggregate
phase is Failed. -/
theorem backup_delete_failure_duplicates_entry :
    (ExecuteBackup.execute deleteFailPorts oneCollectionBackupSpec "ep" 0 1).map
        (fun st => (st.collections.map (fun e => (e.name, e.status)), st.phase)) =
      .ok ([("c", "Completed"), ("c", "Failed")], BackupPhase.FAILED) := by
  rfl

/-- C4 counterexample: a backup reference that resolves to a recorded
storage path is NOT sufficient for the restore to proceed — with no direct
storage source the whole operation still raises "No storage configuration
found", although `resolve_source` succeeded on the reference. -/
theorem restore_backup_ref_not_sufficient :
    resolve_source backupRefPorts backupRefOnlySpec = .ok "bkt/prior-backup" ∧
    ExecuteRestore.execute backupRefPorts backupRefOnlySpec "ep" 0 1 =
      .error "No storage configuration found" :=
  ⟨rfl, rfl⟩

/-- C4 (amended): the source path resolves from the backup reference when
the lookup yields a backup with a non-empty recorded path, falling through
to the direct source's prefix otherwise, and `resolve_source` raises only
when neither yields a path; but the executor additionally requires the
direct storage source to be present: whenever `source_s3` is absent the
whole operation raises (no status is returned), even if the backup
reference resolved. -/
theorem restore_source_resolution (ports : RestorePorts) (spec : RestoreSpec)
    (cluster_endpoint : String) (start_time end_time : Time) :
    (∀ r p, spec.backup_ref = some r → ports.get_resource r = some (some p) →
      p ≠ "" → resolve_source ports spec = .ok p) ∧
    (∀ s, spec.backup_ref = none → spec.source_s3 = some s →
      resolve_source ports spec = .ok s.pfx) ∧
    (∀ r s, spec.backup_ref = some r →
      (ports.get_resource r = none ∨ ports.get_resource r = some none ∨
        ports.get_resource r = some (some "")) →
      spec.source_s3 = some s → resolve_source ports spec = .ok s.pfx) ∧
    (spec.backup_ref = none → spec.source_s3 = none →
      resolve_source ports spec = .error "No valid backup source found") ∧
    (∀ r, spec.backup_ref = some r →
      (ports.get_resource r = none ∨ ports.get_resource r = some none ∨
        ports.get_resource r = some (some "")) →
      spec.source_s3 = none →
      resolve_source ports spec = .error "No valid backup source found") ∧
    (spec.source_s3 = none → ∀ st,
      ExecuteRestore.execute ports spec cluster_endpoint start_time end_time ≠
        .ok st) := by
  refine ⟨?_, ?_, ?_, ?_, ?_, ?_⟩
  · intro r p hr hg hp
    simp [resolve_source, hr, hg, hp]
  · intro s hr hs
    simp [resolve_source, hr, hs]
  · intro r s hr hg hs
    rcases hg with hg | hg | hg <;> simp [resolve_source, hr, hg, hs]
  · intro hr hs
    simp [resolve_source, hr, hs]
  · intro r hr hg hs
    rcases hg with hg | hg | hg <;> simp [resolve_source, hr, hg, hs]
  · intro hs st hok
    unfold ExecuteRestore.execute at hok
    cases hres : resolve_source ports spec with
    | error e => rw [hres] at hok; simp [Bind.bind, Except.bind] at hok
    | ok p => rw [hres] at hok; rw [hs] at hok
              simp [Bind.bind, Except.bind] at hok

/-- C4 witness: on a spec carrying both a resolving backup reference and a
direct source, the reference's recorded path wins. -/
theorem restore_source_resolution_witness :
    resolve_source backupRefPorts
      { backupRefOnlySpec with source_s3 := some sampleStorage } =
      .ok "bkt/prior-backup" :=
  (restore_source_resolution backupRefPorts
    { backupRefOnlySpec with source_s3 := some sampleStorage } "ep" 0 1).1
    { name := "prior-backup" } "bkt/prior-backup" rfl rfl (by decide)

/-- C10: when the spec lists no collections and the listed remote files
yield no collection names, the Restore Executor completes with an empty
restored list, no error, and final progress 0/0 at 100 percent; the loop
body — and with it the per-iteration percentage division — is never
evaluated (its trace is empty). -/
theorem restore_empty_collections (ports : RestorePorts) (spec : RestoreSpec)
    (cluster_endpoint : String) (start_time end_time : Time)
    (source_path : String) (storage : S3StorageSpec)
    (creds : String × String) (files : List String)
    (h1 : resolve_source ports spec = .ok source_path)
    (h2 : spec.source_s3 = some storage)
    (h3 : get_storage_credentials ports.get_secret_value storage = .ok creds)
    (h4 : ports.list_files storage creds source_path = .ok files)
    (h5 : spec.collections = [])
    (h6 : extract_collections files = []) :
    ExecuteRestore.execute ports spec cluster_endpoint start_time end_time =
      .ok { phase := RestorePhase.COMPLETED,
            start_time := some start_time,
            completion_time := some end_time,
            source_backup := some source_path,
            restored_collections := [],
            progress := { collections_total := 0, collections_completed := 0,
                          percentage := 100 },
            error := none } ∧
    restoreLoop ports storage creds files spec.collection_mapping 0
      cluster_endpoint 0
      (if spec.collections ≠ [] then spec.collections
       else extract_collections files) = ([], []) := by
  constructor
  · unfold ExecuteRestore.execute
    rw [h1, h2]
    simp [Bind.bind, Except.bind, Pure.pure, Except.pure, h3, h4, restoreRun,
      h5, h6, restoreLoop]
  · simp [h5, h6, restoreLoop]

/-- Helper: a list filters to non-nil exactly when some element satisfies
the predicate. -/
theorem filter_ne_nil_iff_exists {a : Type} (p : a → Bool) (l : List a) :
    l.filter p ≠ [] ↔ ∃ x ∈ l, p x = true := by
  rw [Ne, List.filter_eq_nil_iff]
  push_neg
  simp

/-- Helper: the shared aggregation step of both executors, over an
arbitrary outcome list: phase is the failure marker iff some entry's
status is "Failed", and no failure means no promoted first error. -/
theorem agg_spec {g p : Type} [DecidableEq g] (statusOf : g → String)
    (errorOf : g → Option Err) (fail comp : p) (hne : fail ≠ comp)
    (L : List g) :
    ((if L.filter (fun c => statusOf c == "Failed") ≠ [] then fail else comp) =
        fail ↔ ∃ e ∈ L, statusOf e = "Failed") ∧
    ((if L.filter (fun c => statusOf c == "Failed") ≠ [] then fail else comp) =
        comp ↔ ∀ e ∈ L, statusOf e ≠ "Failed") ∧
    ((∀ e ∈ L, statusOf e ≠ "Failed") →
      ((L.filter (fun c => statusOf c == "Failed")).head?.bind errorOf) = none) := by
  by_cases h : L.filter (fun c => statusOf c == "Failed") = []
  · have hall : ∀ e ∈ L, statusOf e ≠ "Failed" := by
      intro e he
      have := List.filter_eq_nil_iff.1 h e he
      simpa using this
    have hif : (if L.filter (fun c => statusOf c == "Failed") ≠ [] then fail
        else comp) = comp := if_neg (not_not_intro h)
    refine ⟨?_, ?_, fun _ => ?_⟩
    · rw [hif]
      constructor
      · intro hc; exact absurd hc.symm hne
      · rintro ⟨e, he, hs⟩; exact absurd hs (hall e he)
    · rw [hif]
      exact iff_of_true rfl hall
    · simp [h]
  · obtain ⟨e, heL, hse⟩ : ∃ x ∈ L, (statusOf x == "Failed") = true := by
      rw [List.filter_eq_nil_iff] at h
      push_neg at h
      simpa using h
    have hfe : statusOf e = "Failed" := by simpa using hse
    have hif : (if L.filter (fun c => statusOf c == "Failed") ≠ [] then fail
        else comp) = fail := if_pos h
    refine ⟨?_, ?_, fun hall => absurd hfe (hall e heL)⟩
    · rw [hif]
      exact ⟨fun _ => ⟨e, heL, hfe⟩, fun _ => rfl⟩
    · rw [hif]
      exact ⟨fun hc => absurd hc hne, fun hall => absurd hfe (hall e heL)⟩

/-- Helper: the phase of a `backupRun` is determined by filtering its own
collection-status list for failures. -/
theorem backupRun_phase (ports : BackupPorts) (spec : BackupSpec) (ep : String)
    (ak : Option String) (creds : String × String) (cs : List String)
    (t1 t2 : Time) :
    (backupRun ports spec ep ak creds cs t1 t2).phase =
      (if (backupRun ports spec ep ak creds cs t1 t2).collections.filter
            (fun c => c.status == "Failed") ≠ [] then BackupPhase.FAILED
       else BackupPhase.COMPLETED) := rfl

/-- Helper: the status-level error of a `backupRun` is the first failing
entry's error. -/
theorem backupRun_error (ports : BackupPorts) (spec : BackupSpec) (ep : String)
    (ak : Option String) (creds : String × String) (cs : List String)
    (t1 t2 : Time) :
    (backupRun ports spec ep ak creds cs t1 t2).error =
      ((backupRun ports spec ep ak creds cs t1 t2).collections.filter
        (fun c => c.status == "Failed")).head?.bind (fun c => c.error) := rfl

/-- Helper: the phase of a `restoreRun` is determined by filtering its own
restored-collection list for failures. -/
theorem restoreRun_phase (ports : RestorePorts) (spec : RestoreSpec)
    (storage : S3StorageSpec) (creds : String × String) (files : List String)
    (sp ep : String) (t1 t2 : Time) :
    (restoreRun ports spec storage creds files sp ep t1 t2).phase =
      (if (restoreRun ports spec storage creds files sp ep t1 t2).restored_collections.filter
            (fun r => r.status == "Failed") ≠ [] then RestorePhase.FAILED
       else RestorePhase.COMPLETED) := rfl

/-- Helper: the status-level error of a `restoreRun` is the first failing
entry's error. -/
theorem restoreRun_error (ports : RestorePorts) (spec : RestoreSpec)
    (storage : S3StorageSpec) (creds : String × String) (files : List String)
    (sp ep : String) (t1 t2 : Time) :
    (restoreRun ports spec storage creds files sp ep t1 t2).error =
      ((restoreRun ports spec storage creds files sp ep t1 t2).restored_collections.filter
        (fun r => r.status == "Failed")).head?.bind (fun r => r.error) := rfl

/-- Helper: a successful `ExecuteBackup.execute` run is a `backupRun` on
some resolved credentials and collection set. -/
theorem executeBackup_ok_inv (ports : BackupPorts) (spec : BackupSpec)
    (ep : String) (t1 t2 : Time) (st : BackupStatus)
    (h : ExecuteBackup.execute ports spec ep t1 t2 = .ok st) :
    ∃ creds cs, st = backupRun ports spec ep none creds cs t1 t2 := by
  unfold ExecuteBackup.execute at h
  cases hc : get_storage_credentials ports.get_secret_value spec.storage with
  | error e => rw [hc] at h; simp [Bind.bind, Except.bind] at h
  | ok creds =>
    rw [hc] at h
    simp only [Bind.bind, Except.bind, Pure.pure, Except.pure] at h
    by_cases hne : spec.collections = []
    · rw [if_neg (not_not_intro hne)] at h
      cases hl : ports.list_collections ep none with
      | error e => rw [hl] at h; simp at h
      | ok cs => rw [hl] at h; simp at h; exact ⟨creds, cs, h.symm⟩
    · rw [if_pos hne] at h
      simp at h
      exact ⟨creds, spec.collections, h.symm⟩

/-- Helper: a successful `ExecuteRestore.execute` run is a `restoreRun` on
some resolved storage, credentials, file listing and source path. -/
theorem executeRestore_ok_inv (ports : RestorePorts) (spec : RestoreSpec)
    (ep : String) (t1 t2 : Time) (st : RestoreStatus)
    (h : ExecuteRestore.execute ports spec ep t1 t2 = .ok st) :
    ∃ storage creds files source_path,
      st = restoreRun ports spec storage creds files source_path ep t1 t2 := by
  unfold ExecuteRestore.execute at h
  cases hres : resolve_source ports spec with
  | error e => rw [hres] at h; simp [Bind.bind, Except.bind] at h
  | ok sp =>
    rw [hres] at h
    simp only [Bind.bind, Except.bind] at h
    cases hs : spec.source_s3 with
    | none => rw [hs] at h; simp [Pure.pure, Except.pure] at h
    | some storage =>
      rw [hs] at h
      simp only [Pure.pure, Except.pure] at h
      cases hc : get_storage_credentials ports.get_secret_value storage with
      | error e => rw [hc] at h; simp at h
      | ok creds =>
        rw [hc] at h
        dsimp only at h
        cases hl : ports.list_files storage creds sp with
        | error e => rw [hl] at h; simp at h
        | ok files =>
          rw [hl] at h
          simp at h
          exact ⟨storage, creds, files, sp, h.symm⟩

/-- C1: both executors aggregate per-item outcomes so that the returned
phase is Failed iff at least one item's outcome is Failed (else
Completed), and the status-level error is exactly the first failing
entry's error text in processing order — absent when nothing failed. -/
theorem backup_restore_aggregation :
    (∀ (ports : BackupPorts) (spec : BackupSpec) (ep : String) (t1 t2 : Time)
        (st : BackupStatus),
      ExecuteBackup.execute ports spec ep t1 t2 = .ok st →
      ((st.phase = BackupPhase.FAILED ↔
          ∃ e ∈ st.collections, e.status = "Failed") ∧
       (st.phase = BackupPhase.COMPLETED ↔
          ∀ e ∈ st.collections, e.status ≠ "Failed") ∧
       st.error = ((st.collections.filter fun c => c.status == "Failed").head?.bind
         fun c => c.error) ∧
       ((∀ e ∈ st.collections, e.status ≠ "Failed") → st.error = none))) ∧
    (∀ (ports : RestorePorts) (spec : RestoreSpec) (ep : String) (t1 t2 : Time)
        (st : RestoreStatus),
      ExecuteRestore.execute ports spec ep t1 t2 = .ok st →
      ((st.phase = RestorePhase.FAILED ↔
          ∃ r ∈ st.restored_collections, r.status = "Failed") ∧
       (st.phase = RestorePhase.COMPLETED ↔
          ∀ r ∈ st.restored_collections, r.status ≠ "Failed") ∧
       st.error =
         ((st.restored_collections.filter fun r => r.status == "Failed").head?.bind
           fun r => r.error) ∧
       ((∀ r ∈ st.restored_collections, r.status ≠ "Failed") →
          st.error = none))) := by
  constructor
  · intro ports spec ep t1 t2 st hexec
    obtain ⟨creds, cs, hst⟩ := executeBackup_ok_inv ports spec ep t1 t2 st hexec
    subst hst
    have hagg := agg_spec (fun c : CollectionBackupStatus => c.status)
      (fun c => c.error) BackupPhase.FAILED BackupPhase.COMPLETED (by decide)
      (backupRun ports spec ep none creds cs t1 t2).collections
    refine ⟨?_, ?_, backupRun_error ports spec ep none creds cs t1 t2, ?_⟩
    · rw [backupRun_phase]
      exact hagg.1
    · rw [backupRun_phase]
      exact hagg.2.1
    · intro hall
      rw [backupRun_error]
      exact hagg.2.2 hall
  · intro ports spec ep t1 t2 st hexec
    obtain ⟨storage, creds, files, sp, hst⟩ :=
      executeRestore_ok_inv ports spec ep t1 t2 st hexec
    subst hst
    have hagg := agg_spec (fun r : RestoredCollection => r.status)
      (fun r => r.error) RestorePhase.FAILED RestorePhase.COMPLETED (by decide)
      (restoreRun ports spec storage creds files sp ep t1 t2).restored_collections
    refine ⟨?_, ?_, restoreRun_error ports spec storage creds files sp ep t1 t2, ?_⟩
    · rw [restoreRun_phase]
      exact hagg.1
    · rw [restoreRun_phase]
      exact hagg.2.1
    · intro hall
      rw [restoreRun_error]
      exact hagg.2.2 hall

/-- C1 witness: the duplicate-entry run has a Failed entry, so its
aggregate phase is Failed. -/
theorem backup_restore_aggregation_witness :
    (backupRun deleteFailPorts oneCollectionBackupSpec "ep" none ("key", "key")
      ["c"] 0 1).phase = BackupPhase.FAILED :=
  (backup_restore_aggregation.1 deleteFailPorts oneCollectionBackupSpec "ep" 0 1
    (backupRun deleteFailPorts oneCollectionBackupSpec "ep" none ("key", "key")
      ["c"] 0 1) rfl).1.mpr
    ⟨{ name := "c", status := "Failed", error := some "delete failed" },
     by decide, rfl⟩

/-- Helper: every entry a collection's backup iteration appends carries
that collection's name, and at least one entry is appended. -/
theorem backupCollection_names (ports : BackupPorts) (spec : BackupSpec)
    (ep : String) (ak : Option String) (creds : String × String) (c : String) :
    (backupCollection ports spec ep ak creds c).1 ≠ [] ∧
    ∀ e ∈ (backupCollection ports spec ep ak creds c).1, e.name = c := by
  unfold backupCollection
  cases hc : ports.create_snapshot ep c ak with
  | error e => simp [hc]
  | ok snap =>
    cases hd : ports.download_snapshot ep c snap.name ("/tmp/" ++ snap.name) ak with
    | error e => simp [hd]
    | ok u =>
      cases hu : ports.upload_file spec.storage creds ("/tmp/" ++ snap.name)
          (spec.storage.pfx ++ "/" ++ spec.name ++ "/" ++ c ++ "/" ++
            snap.name) with
      | error e => simp [hd, hu]
      | ok v =>
        cases hdel : ports.delete_snapshot ep c snap.name ak with
        | error e => simp [hd, hu, hdel]
        | ok w => simp [hd, hu, hdel]

/-- Helper: a restore iteration records its outcome under the target
name. -/
theorem restoreCollection_name (ports : RestorePorts) (storage : S3StorageSpec)
    (creds : String × String) (files : List String) (ep c tn : String) :
    (restoreCollection ports storage creds files ep c tn).name = tn := by
  unfold restoreCollection
  cases hk : find_snapshot_key files c with
  | error e => simp [hk]
  | ok key =>
    cases hd : ports.download_file storage creds key
        ("/tmp/" ++ c ++ "_restore.snapshot") with
    | error e => simp [hk, hd]
    | ok u =>
      cases hr : ports.recover_from_snapshot ep tn
          ("/tmp/" ++ c ++ "_restore.snapshot") with
      | error e => simp [hk, hd, hr]
      | ok v =>
        cases hi : ports.get_collection_info ep tn with
        | error e => simp [hk, hd, hr, hi]
        | ok pts => simp [hk, hd, hr, hi]

/-- Helper: the restore loop appends exactly one outcome per collection, in
input order, each produced independently of the others. -/
theorem restoreLoop_entries (ports : RestorePorts) (storage : S3StorageSpec)
    (creds : String × String) (files : List String)
    (m : List (String × String)) (total : Nat) (ep : String) :
    ∀ (l : List String) (i : Nat),
      (restoreLoop ports storage creds files m total ep i l).1 =
        l.map (fun c => restoreCollection ports storage creds files ep c
          (dictGet m c c)) := by
  intro l
  induction l with
  | nil => intro i; rfl
  | cons c rest ih =>
    intro i
    simp [restoreLoop, ih (i + 1)]

/-- C2: a per-collection step failure is caught inside the loop, recorded
as that collection's Failed outcome carrying the exception's text, and
never aborts the use case or the remaining collections: with credentials
and the collection set resolved, both executors return a status (never
raise); outcome lists are the input-order concatenation of per-collection
results, one (or, for backup, one or two) entries per attempted
collection, each named after it; and each failing step (snapshot
creation, download, upload, deletion; snapshot lookup, download, recovery,
info lookup) yields exactly the Failed entry with that step's error
text. -/
theorem per_collection_failure_isolation :
    (∀ (ports : BackupPorts) (spec : BackupSpec) (ep : String) (t1 t2 : Time)
        (creds : String × String) (cs : List String),
      get_storage_credentials ports.get_secret_value spec.storage = .ok creds →
      (if spec.collections ≠ [] then Except.ok spec.collections
       else ports.list_collections ep none) = Except.ok cs →
      ExecuteBackup.execute ports spec ep t1 t2 =
        .ok (backupRun ports spec ep none creds cs t1 t2)) ∧
    (∀ (ports : BackupPorts) (spec : BackupSpec) (ep : String)
        (ak : Option String) (creds : String × String) (cs : List String)
        (t1 t2 : Time),
      (backupRun ports spec ep ak creds cs t1 t2).collections =
        cs.flatMap (fun c => (backupCollection ports spec ep ak creds c).1) ∧
      ∀ c ∈ cs, ∃ e ∈ (backupRun ports spec ep ak creds cs t1 t2).collections,
        e.name = c) ∧
    (∀ (ports : BackupPorts) (spec : BackupSpec) (ep : String)
        (ak : Option String) (creds : String × String) (c : String) (e : Err),
      (ports.create_snapshot ep c ak = .error e →
        (backupCollection ports spec ep ak creds c).1 =
          [{ name := c, status := "Failed", error := some e }]) ∧
      (∀ snap, ports.create_snapshot ep c ak = .ok snap →
        ports.download_snapshot ep c snap.name ("/tmp/" ++ snap.name) ak =
          .error e →
        (backupCollection ports spec ep ak creds c).1 =
          [{ name := c, status := "Failed", error := some e }]) ∧
      (∀ snap, ports.create_snapshot ep c ak = .ok snap →
        ports.download_snapshot ep c snap.name ("/tmp/" ++ snap.name) ak =
          .ok () →
        ports.upload_file spec.storage creds ("/tmp/" ++ snap.name)
          (spec.storage.pfx ++ "/" ++ spec.name ++ "/" ++ c ++ "/" ++
            snap.name) = .error e →
        (backupCollection ports spec ep ak creds c).1 =
          [{ name := c, status := "Failed", error := some e }]) ∧
      (∀ snap, ports.create_snapshot ep c ak = .ok snap →
        ports.download_snapshot ep c snap.name ("/tmp/" ++ snap.name) ak =
          .ok () →
        ports.upload_file spec.storage creds ("/tmp/" ++ snap.name)
          (spec.storage.pfx ++ "/" ++ spec.name ++ "/" ++ c ++ "/" ++
            snap.name) = .ok () →
        ports.delete_snapshot ep c snap.name ak = .error e →
        (backupCollection ports spec ep ak creds c).1 =
          [{ name := c, snapshot_name := some snap.name,
             size := some (format_size snap.size_bytes), status := "Completed" },
           { name := c, status := "Failed", error := some e }])) ∧
    (∀ (ports : RestorePorts) (spec : RestoreSpec) (ep : String)
        (t1 t2 : Time) (sp : String) (storage : S3StorageSpec)
        (creds : String × String) (files : List String),
      resolve_source ports spec = .ok sp →
      spec.source_s3 = some storage →
      get_storage_credentials ports.get_secret_value storage = .ok creds →
      ports.list_files storage creds sp = .ok files →
      ExecuteRestore.execute ports spec ep t1 t2 =
        .ok (restoreRun ports spec storage creds files sp ep t1 t2)) ∧
    (∀ (ports : RestorePorts) (spec : RestoreSpec) (storage : S3StorageSpec)
        (creds : String × String) (files : List String) (sp ep : String)
        (t1 t2 : Time),
      (restoreRun ports spec storage creds files sp ep t1 t2).restored_collections =
        (if spec.collections ≠ [] then spec.collections
         else extract_collections files).map
          (fun c => restoreCollection ports storage creds files ep c
            (dictGet spec.collection_mapping c c)) ∧
      ∀ c ∈ (if spec.collections ≠ [] then spec.collections
             else extract_collections files),
        ∃ r ∈ (restoreRun ports spec storage creds files sp ep
            t1 t2).restored_collections,
          r.name = dictGet spec.collection_mapping c c) ∧
    (∀ (ports : RestorePorts) (storage : S3StorageSpec)
        (creds : String × String) (files : List String) (ep c tn : String)
        (e : Err),
      (find_snapshot_key files c = .error e →
        restoreCollection ports storage creds files ep c tn =
          { name := tn,
            original_name := if c ≠ tn then some c else none,
            status := "Failed", error := some e }) ∧
      (∀ key, find_snapshot_key files c = .ok key →
        ports.download_file storage creds key
          ("/tmp/" ++ c ++ "_restore.snapshot") = .error e →
        restoreCollection ports storage creds files ep c tn =
          { name := tn,
            original_name := if c ≠ tn then some c else none,
            status := "Failed", error := some e }) ∧
      (∀ key, find_snapshot_key files c = .ok key →
        ports.download_file storage creds key
          ("/tmp/" ++ c ++ "_restore.snapshot") = .ok () →
        ports.recover_from_snapshot ep tn
          ("/tmp/" ++ c ++ "_restore.snapshot") = .error e →
        restoreCollection ports storage creds files ep c tn =
          { name := tn,
            original_name := if c ≠ tn then some c else none,
            status := "Failed", error := some e }) ∧
      (∀ key, find_snapshot_key files c = .ok key →
        ports.download_file storage creds key
          ("/tmp/" ++ c ++ "_restore.snapshot") = .ok () →
        ports.recover_from_snapshot ep tn
          ("/tmp/" ++ c ++ "_restore.snapshot") = .ok () →
        ports.get_collection_info ep tn = .error e →
        restoreCollection ports storage creds files ep c tn =
          { name := tn,
            original_name := if c ≠ tn then some c else none,
            status := "Failed", error := some e })) := by
  refine ⟨?_, ?_, ?_, ?_, ?_, ?_⟩
  · intro ports spec ep t1 t2 creds cs hc hcs
    unfold ExecuteBackup.execute
    rw [hc]
    simp only [Bind.bind, Except.bind, Pure.pure, Except.pure]
    by_cases hne : spec.collections = []
    · rw [if_neg (not_not_intro hne)] at hcs ⊢
      rw [hcs]
    · rw [if_pos hne] at hcs ⊢
      cases hcs
      rfl
  · intro ports spec ep ak creds cs t1 t2
    refine ⟨rfl, fun c hc => ?_⟩
    obtain ⟨hne, hnames⟩ := backupCollection_names ports spec ep ak creds c
    obtain ⟨x, hx⟩ := List.exists_mem_of_ne_nil _ hne
    exact ⟨x, List.mem_flatMap.2 ⟨c, hc, hx⟩, hnames x hx⟩
  · intro ports spec ep ak creds c e
    refine ⟨?_, ?_, ?_, ?_⟩
    · intro h
      simp [backupCollection, h]
    · intro snap h1 h2
      simp [backupCollection, h1, h2]
    · intro snap h1 h2 h3
      simp [backupCollection, h1, h2, h3]
    · intro snap h1 h2 h3 h4
      simp [backupCollection, h1, h2, h3, h4]
  · intro ports spec ep t1 t2 sp storage creds files h1 h2 h3 h4
    unfold ExecuteRestore.execute
    rw [h1, h2]
    simp only [Bind.bind, Except.bind, Pure.pure, Except.pure]
    rw [h3]
    dsimp only
    rw [h4]
  · intro ports spec storage creds files sp ep t1 t2
    have hlist : (restoreRun ports spec storage creds files sp ep
        t1 t2).restored_collections =
        (if spec.collections ≠ [] then spec.collections
         else extract_collections files).map
          (fun c => restoreCollection ports storage creds files ep c
            (dictGet spec.collection_mapping c c)) :=
      restoreLoop_entries ports storage creds files spec.collection_mapping
        (if spec.collections ≠ [] then spec.collections
         else extract_collections files).length ep
        (if spec.collections ≠ [] then spec.collections
         else extract_collections files) 0
    refine ⟨hlist, fun c hc => ?_⟩
    refine ⟨restoreCollection ports storage creds files ep c
      (dictGet spec.collection_mapping c c), ?_,
      restoreCollection_name ports storage creds files ep c
        (dictGet spec.collection_mapping c c)⟩
    rw [hlist]
    exact List.mem_map_of_mem _ hc
  · intro ports storage creds files ep c tn e
    refine ⟨?_, ?_, ?_, ?_⟩
    · intro h
      simp [restoreCollection, h]
    · intro key h1 h2
      simp [restoreCollection, h1, h2]
    · intro key h1 h2 h3
      simp [restoreCollection, h1, h2, h3]
    · intro key h1 h2 h3 h4
      simp [restoreCollection, h1, h2, h3, h4]

/-- C2 witness: with an upload that always raises, the single collection's
outcome is exactly one Failed entry carrying that error text. -/
theorem per_collection_failure_isolation_witness :
    (backupCollection
      { deleteFailPorts with
        upload_file := fun _ _ _ _ => .error "upload boom"
        delete_snapshot := fun _ _ _ _ => .ok () }
      oneCollectionBackupSpec "ep" none ("key", "key") "c").1 =
      [{ name := "c", status := "Failed", error := some "upload boom" }] :=
  (per_collection_failure_isolation.2.2.1
    { deleteFailPorts with
      upload_file := fun _ _ _ _ => .error "upload boom"
      delete_snapshot := fun _ _ _ _ => .ok () }
    oneCollectionBackupSpec "ep" none ("key", "key") "c" "upload boom").2.2.1
    { name := "c-snap", collection := "c", size_bytes := 2048, created_at := 0 }
    rfl rfl rfl

/-- Helper: elements of a `strEntry` segment are non-null string values
under the segment's key. -/
theorem strEntry_mem {k : String} {o : Option String} {p : String × JValue}
    (hp : p ∈ strEntry k o) : ∃ v, p = (k, JValue.s v) := by
  cases o with
  | none => simp [strEntry] at hp
  | some v =>
    by_cases hv : v = ""
    · simp [strEntry, hv] at hp
    · simp [strEntry, hv] at hp
      exact ⟨v, by rw [hp]⟩

/-- Helper: elements of a `timeEntry` segment are non-null string values
under the segment's key. -/
theorem timeEntry_mem {k : String} {o : Option Time} {p : String × JValue}
    (hp : p ∈ timeEntry k o) : ∃ t, p = (k, JValue.s (isoformat t)) := by
  cases o with
  | none => simp [timeEntry] at hp
  | some t =>
    simp [timeEntry] at hp
    exact ⟨t, by rw [hp]⟩

/-- Helper: an element of a conditional singleton segment is that
singleton. -/
theorem ifSingleton_mem {c : Prop} [Decidable c] {k : String} {v : JValue}
    {p : String × JValue}
    (hp : p ∈ (if c then [(k, v)] else [] : JDict)) : p = (k, v) := by
  split at hp
  · simpa using hp
  · simp at hp

/-- Helper: a property holding on both halves holds on an append. -/
theorem entries_prop_append {P : String × JValue → Prop} {l1 l2 : JDict}
    (h1 : ∀ p ∈ l1, P p) (h2 : ∀ p ∈ l2, P p) : ∀ p ∈ l1 ++ l2, P p := by
  intro p hp
  rcases List.mem_append.1 hp with h | h
  exacts [h1 p h, h2 p h]

/-- Helper: `BackupStatus.to_dict` contains no null value. -/
theorem backupStatus_to_dict_no_null (s : BackupStatus) :
    ∀ p ∈ s.to_dict, p.2 ≠ JValue.null := by
  unfold BackupStatus.to_dict
  refine entries_prop_append (entries_prop_append (entries_prop_append
    (entries_prop_append (entries_prop_append (entries_prop_append
    (entries_prop_append ?_ ?_) ?_) ?_) ?_) ?_) ?_) ?_
  · intro p hp; simp at hp; subst hp; simp
  · intro p hp; obtain ⟨t, rfl⟩ := timeEntry_mem hp; simp
  · intro p hp; obtain ⟨t, rfl⟩ := timeEntry_mem hp; simp
  · intro p hp; obtain ⟨v, rfl⟩ := strEntry_mem hp; simp
  · intro p hp; obtain ⟨v, rfl⟩ := strEntry_mem hp; simp
  · intro p hp; rw [ifSingleton_mem hp]; simp
  · intro p hp; obtain ⟨v, rfl⟩ := strEntry_mem hp; simp
  · intro p hp; rw [ifSingleton_mem hp]; simp

/-- Helper: `RestoreStatus.to_dict` contains no null value. -/
theorem restoreStatus_to_dict_no_null (s : RestoreStatus) :
    ∀ p ∈ s.to_dict, p.2 ≠ JValue.null := by
  unfold RestoreStatus.to_dict
  refine entries_prop_append (entries_prop_append (entries_prop_append
    (entries_prop_append (entries_prop_append (entries_prop_append
    (entries_prop_append ?_ ?_) ?_) ?_) ?_) ?_) ?_) ?_
  · intro p hp; simp at hp; subst hp; simp
  · intro p hp; obtain ⟨t, rfl⟩ := timeEntry_mem hp; simp
  · intro p hp; obtain ⟨t, rfl⟩ := timeEntry_mem hp; simp
  · intro p hp; obtain ⟨v, rfl⟩ := strEntry_mem hp; simp
  · intro p hp; rw [ifSingleton_mem hp]; simp
  · intro p hp; simp at hp; subst hp; simp
  · intro p hp; obtain ⟨v, rfl⟩ := strEntry_mem hp; simp
  · intro p hp; rw [ifSingleton_mem hp]; simp

/-- Helper: with the error field unset, no "error" key appears in
`BackupStatus.to_dict`. -/
theorem backupStatus_to_dict_no_error_key (s : BackupStatus)
    (h : s.error = none) : ∀ p ∈ s.to_dict, p.1 ≠ "error" := by
  unfold BackupStatus.to_dict
  rw [h]
  refine entries_prop_append (entries_prop_append (entries_prop_append
    (entries_prop_append (entries_prop_append (entries_prop_append
    (entries_prop_append ?_ ?_) ?_) ?_) ?_) ?_) ?_) ?_
  · intro p hp; simp at hp; subst hp; simp
  · intro p hp; obtain ⟨t, rfl⟩ := timeEntry_mem hp; simp
  · intro p hp; obtain ⟨t, rfl⟩ := timeEntry_mem hp; simp
  · intro p hp; obtain ⟨v, rfl⟩ := strEntry_mem hp; simp
  · intro p hp; obtain ⟨v, rfl⟩ := strEntry_mem hp; simp
  · intro p hp; rw [ifSingleton_mem hp]; simp
  · intro p hp; simp [strEntry] at hp
  · intro p hp; rw [ifSingleton_mem hp]; simp

/-- Helper: with the error field unset, no "error" key appears in
`RestoreStatus.to_dict`. -/
theorem restoreStatus_to_dict_no_error_key (s : RestoreStatus)
    (h : s.error = none) : ∀ p ∈ s.to_dict, p.1 ≠ "error" := by
  unfold RestoreStatus.to_dict
  rw [h]
  refine entries_prop_append (entries_prop_append (entries_prop_append
    (entries_prop_append (entries_prop_append (entries_prop_append
    (entries_prop_append ?_ ?_) ?_) ?_) ?_) ?_) ?_) ?_
  · intro p hp; simp at hp; subst hp; simp
  · intro p hp; obtain ⟨t, rfl⟩ := timeEntry_mem hp; simp
  · intro p hp; obtain ⟨t, rfl⟩ := timeEntry_mem hp; simp
  · intro p hp; obtain ⟨v, rfl⟩ := strEntry_mem hp; simp
  · intro p hp; rw [ifSingleton_mem hp]; simp
  · intro p hp; simp at hp; subst hp; simp
  · intro p hp; simp [strEntry] at hp
  · intro p hp; rw [ifSingleton_mem hp]; simp

/-- C9 counterexample: a ClusterStatus with no release name and no endpoint
serializes with "helmRelease" and "endpoint" keys carrying null — unset
optional fields are NOT omitted from its persisted form. -/
theorem cluster_status_to_dict_emits_null :
    ({ phase := ClusterPhase.PENDING } : ClusterStatus).helm_release = none ∧
    ({ phase := ClusterPhase.PENDING } : ClusterStatus).endpoint = none ∧
    ("helmRelease", JValue.null) ∈
      ({ phase := ClusterPhase.PENDING } : ClusterStatus).to_dict ∧
    ("endpoint", JValue.null) ∈
      ({ phase := ClusterPhase.PENDING } : ClusterStatus).to_dict :=
  ⟨rfl, rfl,
   List.mem_cons_of_mem _ (List.mem_cons_of_mem _ (List.mem_cons_of_mem _
     (List.mem_cons_self _ _))),
   List.mem_cons_of_mem _ (List.mem_cons_of_mem _ (List.mem_cons_of_mem _
     (List.mem_cons_of_mem _ (List.mem_cons_self _ _))))⟩

/-- C9 (amended): BackupStatus and RestoreStatus serialize to camelCase
maps that omit unset optional fields — no key ever carries a null value,
and an unset error field produces no "error" key at all; ClusterStatus,
however, emits every key unconditionally, so its unset release name,
endpoint, version and observed generation appear as null values. -/
theorem to_dict_null_policy :
    (∀ s : BackupStatus, ∀ p ∈ s.to_dict, p.2 ≠ JValue.null) ∧
    (∀ s : RestoreStatus, ∀ p ∈ s.to_dict, p.2 ≠ JValue.null) ∧
    (∀ s : BackupStatus, s.error = none → ∀ p ∈ s.to_dict, p.1 ≠ "error") ∧
    (∀ s : RestoreStatus, s.error = none → ∀ p ∈ s.to_dict, p.1 ≠ "error") ∧
    (∀ c : ClusterStatus, c.helm_release = none →
      ("helmRelease", JValue.null) ∈ c.to_dict) ∧
    (∀ c : ClusterStatus, c.endpoint = none →
      ("endpoint", JValue.null) ∈ c.to_dict) ∧
    (∀ c : ClusterStatus, c.version = none →
      ("version", JValue.null) ∈ c.to_dict) ∧
    (∀ c : ClusterStatus, c.observed_generation = none →
      ("observedGeneration", JValue.null) ∈ c.to_dict) := by
  refine ⟨backupStatus_to_dict_no_null, restoreStatus_to_dict_no_null,
    backupStatus_to_dict_no_error_key, restoreStatus_to_dict_no_error_key,
    ?_, ?_, ?_, ?_⟩
  · intro c h
    unfold ClusterStatus.to_dict
    rw [h]
    exact List.mem_cons_of_mem _ (List.mem_cons_of_mem _
      (List.mem_cons_of_mem _ (List.mem_cons_self _ _)))
  · intro c h
    unfold ClusterStatus.to_dict
    rw [h]
    exact List.mem_cons_of_mem _ (List.mem_cons_of_mem _
      (List.mem_cons_of_mem _ (List.mem_cons_of_mem _
        (List.mem_cons_self _ _))))
  · intro c h
    unfold ClusterStatus.to_dict
    rw [h]
    exact List.mem_cons_of_mem _ (List.mem_cons_of_mem _
      (List.mem_cons_of_mem _ (List.mem_cons_of_mem _
        (List.mem_cons_of_mem _ (List.mem_cons_self _ _)))))
  · intro c h
    unfold ClusterStatus.to_dict
    rw [h]
    exact List.mem_cons_of_mem _ (List.mem_cons_of_mem _
      (List.mem_cons_of_mem _ (List.mem_cons_of_mem _
        (List.mem_cons_of_mem _ (List.mem_cons_of_mem _
          (List.mem_cons_of_mem _ (List.mem_cons_self _ _)))))))

/-- C9 witness: the no-null and null-emission facts at concrete statuses. -/
theorem to_dict_null_policy_witness :
    (∀ p ∈ ({ phase := BackupPhase.COMPLETED } : BackupStatus).to_dict,
      p.2 ≠ JValue.null) ∧
    ("version", JValue.null) ∈
      ({ phase := ClusterPhase.PENDING } : ClusterStatus).to_dict :=
  ⟨to_dict_null_policy.1 { phase := BackupPhase.COMPLETED },
   to_dict_null_policy.2.2.2.2.2.2.1 { phase := ClusterPhase.PENDING } rfl⟩

/-- C10 witness: concrete ports listing no files at all. -/
theorem restore_empty_collections_witness :
    ExecuteRestore.execute
      { backupRefPorts with get_resource := fun _ => none }
      { name := "rst", namespace' := "default",
        target_cluster_ref := sampleClusterRef,
        source_s3 := some sampleStorage } "ep" 3 4 =
      .ok { phase := RestorePhase.COMPLETED,
            start_time := some 3,
            completion_time := some 4,
            source_backup := some "backups",
            restored_collections := [],
            progress := { collections_total := 0, collections_completed := 0,
                          percentage := 100 },
            error := none } :=
  (restore_empty_collections
    { backupRefPorts with get_resource := fun _ => none }
    { name := "rst", namespace' := "default",
      target_cluster_ref := sampleClusterRef,
      source_s3 := some sampleStorage } "ep" 3 4 "backups" sampleStorage
    ("key", "key") [] rfl rfl rfl rfl rfl rfl).1
